import Mathlib

/-!
Shallow embedding of `src/spawn_capture.py` (the RSFCApp GUI: robot spawner and
camera frame capture).  Numeric GUI fields and pose components are modelled as
rationals (the Python code only negates and passes values through, operations
that are exact on floats).  Image byte buffers are lists of naturals; a QImage
bitmap is modelled by its pixel-byte accessor.  The filesystem, ROS log and the
stream of outbound service requests are explicit state threaded through the
operations.
-/

namespace RSFC

/-- A `sensor_msgs/Image` message: width, height and a dense byte buffer. -/
structure ImageMsg where
  width : Nat
  height : Nat
  data : List Nat
deriving Repr, DecidableEq

/-- A decoded bitmap (QImage): dimensions plus the byte accessor
`byte r c k` giving channel `k` of the pixel at row `r`, column `c`. -/
structure Bitmap where
  width : Nat
  height : Nat
  byte : Nat → Nat → Nat → Nat

/-- `QImage(data, width, height, bytesPerLine, Format_RGB888)`: interprets the
byte buffer with row stride `bytesPerLine` and three bytes per pixel. -/
def mkQImage (data : List Nat) (width height bytesPerLine : Nat) : Bitmap :=
  { width := width, height := height,
    byte := fun r c k => data.getD (r * bytesPerLine + 3 * c + k) 0 }

/-- `QImage.rgbSwapped()`: swaps the red and blue channels of every pixel,
i.e. reverses the 3-byte channel order (`2 - k` maps 0 ↦ 2, 1 ↦ 1, 2 ↦ 0). -/
def Bitmap.rgbSwapped (b : Bitmap) : Bitmap :=
  { b with byte := fun r c k => b.byte r c (2 - k) }

/-- `CvBridge.imgmsg_to_cv2(data, "bgr8")` on a bgr8-encoded message: the pixel
buffer is kept in its BGR byte order. -/
def imgmsg_to_cv2 (data : List Nat) : List Nat := data

/-- The bitmap built by `update_camera_feed` from an inbound message
(lines 77-80 of the source). -/
def decodeFrame (m : ImageMsg) : Bitmap :=
  let cv_image := imgmsg_to_cv2 m.data
  let bytes_per_line := 3 * m.width
  (mkQImage cv_image m.width m.height bytes_per_line).rgbSwapped

/-- A pose: position and orientation components. -/
structure Pose where
  position_x : ℚ
  position_y : ℚ
  position_z : ℚ
  orientation_x : ℚ
  orientation_y : ℚ
  orientation_z : ℚ
  orientation_w : ℚ
deriving Repr, DecidableEq

/-- The model-state payload of a `gazebo_msgs/SetModelState` request. -/
structure ModelState where
  model_name : String
  pose : Pose
deriving Repr, DecidableEq

/-- A `SetModelStateRequest`. -/
structure SetModelStateRequest where
  model_state : ModelState
deriving Repr, DecidableEq

/-- The window state of `RSFCApp`: the single current-frame slot, the preview
widget content, the status line, and the five numeric input fields. -/
structure AppState where
  current_frame : Option Bitmap
  camera_feed : Option Bitmap
  capture_frame_output : String
  coordinate_x : ℚ
  coordinate_y : ℚ
  coordinate_z : ℚ
  orientation_z : ℚ
  orientation_w : ℚ

/-- The local filesystem visible to the app: a set of directories and the
files (path and bitmap content) on disk. -/
structure FileSystem where
  dirs : List String
  files : List (String × Bitmap)

/-- `os.makedirs(p)`. -/
def makedirs (fs : FileSystem) (p : String) : FileSystem :=
  { fs with dirs := fs.dirs ++ [p] }

/-- `QImage.save(path, "PNG")`: writes (or overwrites) the file at `path`. -/
def saveFile (fs : FileSystem) (path : String) (img : Bitmap) : FileSystem :=
  { fs with files := (path, img) :: fs.files.filter (fun e => decide (e.1 ≠ path)) }

/-- The request built by `spawn_robot` (lines 55-63 of the source) from the
five GUI field values. -/
def buildSpawnRequest (coordinate_x coordinate_y coordinate_z
    orientation_z orientation_w : ℚ) : SetModelStateRequest :=
  { model_state :=
    { model_name := "R1"
      pose :=
      { position_x := coordinate_x * (-1)   -- coordinates are inverted
        position_y := coordinate_y * (-1)   -- coordinates are inverted
        position_z := coordinate_z
        orientation_x := 0
        orientation_y := 0
        orientation_z := orientation_z
        orientation_w := orientation_w } } }

/-- Outcome of the `/gazebo/set_model_state` service interaction: either the
call succeeds or it raises a `rospy.ServiceException` carrying a message. -/
inductive ServiceOutcome where
  | ok
  | serviceException (e : String)
deriving Repr, DecidableEq

/-- `spawn_robot` (lines 43-70): reads the five fields, builds the request and
performs one service call.  The call attempt is recorded on the outbound
`attempts` stream; on a `ServiceException` the error text is logged via
`rospy.logerr` and control returns.  Result: new window state, filesystem,
log and attempts. -/
def spawn_robot (outcome : ServiceOutcome) (st : AppState) (fs : FileSystem)
    (log : List String) (attempts : List SetModelStateRequest) :
    AppState × FileSystem × List String × List SetModelStateRequest :=
  let msg := buildSpawnRequest st.coordinate_x st.coordinate_y st.coordinate_z
    st.orientation_z st.orientation_w
  match outcome with
  | .ok => (st, fs, log, attempts ++ [msg])
  | .serviceException e => (st, fs, log ++ [e], attempts ++ [msg])

/-- `update_camera_feed` (lines 72-81): decodes the message and stores the
bitmap both in the current-frame slot and in the preview widget. -/
def update_camera_feed (st : AppState) (data : ImageMsg) : AppState :=
  let frame := decodeFrame data
  { st with current_frame := some frame, camera_feed := some frame }

/-- A wall-clock reading at second resolution, as consumed by
`datetime.now().strftime("%Y-%m-%d_%H:%M:%S")`. -/
structure DateMoment where
  year : Nat
  month : Nat
  day : Nat
  hour : Nat
  minute : Nat
  second : Nat
deriving Repr, DecidableEq

/-- Zero-pad a number to two digits, as strftime does for each field. -/
def pad2 (n : Nat) : String :=
  if n < 10 then "0" ++ toString n else toString n

/-- `now.strftime("%Y-%m-%d_%H:%M:%S")`. -/
def strftime_timestamp (d : DateMoment) : String :=
  toString d.year ++ "-" ++ pad2 d.month ++ "-" ++ pad2 d.day ++ "_" ++
    pad2 d.hour ++ ":" ++ pad2 d.minute ++ ":" ++ pad2 d.second

/-- The output path computed by `capture_frame`:
`os.path.join("screenshots", f"camera_feed_screenshot_\x7btimestamp\x7d.png")`. -/
def screenshot_path (now : DateMoment) : String :=
  "screenshots" ++ "/" ++ "camera_feed_screenshot_" ++ strftime_timestamp now ++ ".png"

/-- Python truthiness of a PyQt5 `QImage` object: `QImage` defines neither
`__bool__` nor `__len__`, so every `QImage` instance is truthy. -/
def pyQImageTruthy (_ : Bitmap) : Bool := true

/-- Python truthiness of the `current_frame` slot: `None` is falsy; a stored
`QImage` is judged by `pyQImageTruthy`. -/
def pyTruthy : Option Bitmap → Bool
  | none => false
  | some img => pyQImageTruthy img

/-- `capture_frame` (lines 83-108), with the wall clock passed explicitly.
`if self.current_frame:` branches on Python truthiness; with a frame it
ensures the `screenshots` directory, saves the PNG at the timestamped path and
writes the success status; without one it only writes the fixed status. -/
def capture_frame (now : DateMoment) (fs : FileSystem) (st : AppState) :
    FileSystem × AppState :=
  match st.current_frame with
  | some frame =>
    if pyQImageTruthy frame then
      let folder_path := "screenshots"
      let fs1 := if folder_path ∈ fs.dirs then fs else makedirs fs folder_path
      let timestamp := strftime_timestamp now
      let fs2 := saveFile fs1 (screenshot_path now) frame
      (fs2, { st with capture_frame_output :=
        "Screenshot saved at " ++ timestamp ++ " in \x27pwd/" ++ folder_path ++ "\x27" })
    else
      (fs, { st with capture_frame_output :=
        "No screenshot captured. Camera feed might be empty." })
  | none =>
    (fs, { st with capture_frame_output :=
      "No screenshot captured. Camera feed might be empty." })

/-- The whole program state: window, filesystem, log, outbound requests. -/
structure World where
  st : AppState
  fs : FileSystem
  log : List String
  attempts : List SetModelStateRequest

/-- External events driving the app: an inbound image message, a capture
button press (with the wall clock at that moment), a spawn button press
(with the service outcome). -/
inductive Event where
  | imageMsg (m : ImageMsg)
  | captureClick (now : DateMoment)
  | spawnClick (outcome : ServiceOutcome)

/-- One event dispatch. -/
def step (w : World) (e : Event) : World :=
  match e with
  | .imageMsg m => { w with st := update_camera_feed w.st m }
  | .captureClick now =>
      let r := capture_frame now w.fs w.st
      { w with fs := r.1, st := r.2 }
  | .spawnClick o =>
      let r := spawn_robot o w.st w.fs w.log w.attempts
      { st := r.1, fs := r.2.1, log := r.2.2.1, attempts := r.2.2.2 }

/-- Run a sequence of events from a starting world. -/
def run (w : World) : List Event → World
  | [] => w
  | e :: es => run (step w e) es

/-- The most recently delivered image message of an event sequence. -/
def lastImage : List Event → Option ImageMsg
  | [] => none
  | e :: es =>
    match lastImage es with
    | some m => some m
    | none =>
      match e with
      | .imageMsg m => some m
      | _ => none

/-- The world right after `RSFCApp.__init__` (line 41 sets the frame slot to
`None`), with the given field values and an empty filesystem, log and
outbound stream. -/
def initWorld (cx cy cz oz ow : ℚ) : World :=
  { st := { current_frame := none, camera_feed := none, capture_frame_output := "",
            coordinate_x := cx, coordinate_y := cy, coordinate_z := cz,
            orientation_z := oz, orientation_w := ow },
    fs := { dirs := [], files := [] },
    log := [], attempts := [] }

/-! ### Concrete data used by witnesses -/

/-- A concrete 2×1 image message: pixel (0,0) has bytes 10,20,30 and pixel
(0,1) has bytes 40,50,60. -/
def msg0 : ImageMsg := { width := 2, height := 1, data := [10, 20, 30, 40, 50, 60] }

/-- A concrete clock reading. -/
def d0 : DateMoment :=
  { year := 2026, month := 10, day := 12, hour := 9, minute := 5, second := 30 }

/-- An empty filesystem. -/
def fs0 : FileSystem := { dirs := [], files := [] }

/-- A concrete window state holding the frame decoded from `msg0`. -/
def st0 : AppState :=
  { current_frame := some (decodeFrame msg0), camera_feed := some (decodeFrame msg0),
    capture_frame_output := "", coordinate_x := 1, coordinate_y := 2,
    coordinate_z := 3, orientation_z := 4, orientation_w := 5 }

/-- A concrete window state with no frame yet. -/
def stEmpty : AppState :=
  { current_frame := none, camera_feed := none, capture_frame_output := "",
    coordinate_x := 0, coordinate_y := 0, coordinate_z := 0,
    orientation_z := 0, orientation_w := 0 }

/-! ### Helper lemmas -/

/-- `saveFile` only touches `files`. -/
theorem saveFile_dirs (fs : FileSystem) (p : String) (img : Bitmap) :
    (saveFile fs p img).dirs = fs.dirs := rfl

/-- Ensuring the screenshots directory keeps the files untouched. -/
theorem ensure_dir_files (fs : FileSystem) (p : String) :
    (if p ∈ fs.dirs then fs else makedirs fs p).files = fs.files := by
  by_cases h : p ∈ fs.dirs <;> simp [h, makedirs]

/-- Filtering a list by a predicate all its members satisfy is the identity. -/
theorem filter_of_forall {α : Type} (p : α → Bool) (l : List α)
    (h : ∀ a ∈ l, p a = true) : l.filter p = l := by
  induction l with
  | nil => rfl
  | cons a l ih =>
    have ha := h a (List.mem_cons_self a l)
    simp [List.filter_cons, ha, ih fun b hb => h b (List.mem_cons_of_mem a hb)]

/-- Filtering twice by the same predicate equals filtering once. -/
theorem filter_idem {α : Type} (p : α → Bool) (l : List α) :
    (l.filter p).filter p = l.filter p :=
  filter_of_forall p (l.filter p) fun _ ha => List.of_mem_filter ha

/-- `capture_frame` never changes the current-frame slot. -/
theorem capture_frame_keeps_frame (now : DateMoment) (fs : FileSystem) (st : AppState) :
    (capture_frame now fs st).2.current_frame = st.current_frame := by
  cases h : st.current_frame <;> simp [capture_frame, h, pyQImageTruthy]

/-- `capture_frame` never changes the five input fields. -/
theorem capture_frame_keeps_inputs (now : DateMoment) (fs : FileSystem) (st : AppState) :
    (capture_frame now fs st).2.coordinate_x = st.coordinate_x ∧
    (capture_frame now fs st).2.coordinate_y = st.coordinate_y ∧
    (capture_frame now fs st).2.coordinate_z = st.coordinate_z ∧
    (capture_frame now fs st).2.orientation_z = st.orientation_z ∧
    (capture_frame now fs st).2.orientation_w = st.orientation_w := by
  cases h : st.current_frame <;> simp [capture_frame, h, pyQImageTruthy]

/-- `spawn_robot` returns the window state it was given. -/
theorem spawn_robot_st (o : ServiceOutcome) (st : AppState) (fs : FileSystem)
    (log : List String) (attempts : List SetModelStateRequest) :
    (spawn_robot o st fs log attempts).1 = st := by
  cases o <;> rfl

/-- The current-frame slot after a run equals the decoded most recent image
message, or the starting slot if no image message occurred. -/
theorem run_current_frame (es : List Event) :
    ∀ w : World, (run w es).st.current_frame =
      match lastImage es with
      | some m => some (decodeFrame m)
      | none => w.st.current_frame := by
  induction es with
  | nil => intro w; rfl
  | cons e es ih =>
    intro w
    have h := ih (step w e)
    cases hL : lastImage es with
    | some m =>
      simp only [run, lastImage, hL]
      rw [h, hL]
    | none =>
      cases e with
      | imageMsg m =>
        simp only [run, lastImage, hL]
        rw [h, hL]
        simp [step, update_camera_feed]
      | captureClick now =>
        simp only [run, lastImage, hL]
        rw [h, hL]
        simp [step, capture_frame_keeps_frame]
      | spawnClick o =>
        simp only [run, lastImage, hL]
        rw [h, hL]
        simp [step, spawn_robot_st]

/-- An event sequence has a most recent image message exactly when it holds
at least one image-message event. -/
theorem lastImage_isSome_iff (es : List Event) :
    (lastImage es).isSome = true ↔ ∃ m, Event.imageMsg m ∈ es := by
  induction es with
  | nil => simp [lastImage]
  | cons e es ih =>
    cases hL : lastImage es with
    | some m =>
      obtain ⟨m', hm'⟩ := ih.mp (by rw [hL]; rfl)
      simp only [lastImage, hL, Option.isSome_some, true_iff]
      exact ⟨m', List.mem_cons_of_mem _ hm'⟩
    | none =>
      rw [hL] at ih
      cases e with
      | imageMsg m =>
        simp only [lastImage, hL, Option.isSome_some, true_iff]
        exact ⟨m, List.mem_cons_self _ _⟩
      | captureClick now =>
        simp only [lastImage, hL, Option.isSome_none, Bool.false_eq_true, false_iff]
        rintro ⟨m, hm⟩
        rcases List.mem_cons.mp hm with h | h
        · simp at h
        · exact absurd (ih.mpr ⟨m, h⟩) (by simp)
      | spawnClick o =>
        simp only [lastImage, hL, Option.isSome_none, Bool.false_eq_true, false_iff]
        rintro ⟨m, hm⟩
        rcases List.mem_cons.mp hm with h | h
        · simp at h
        · exact absurd (ih.mpr ⟨m, h⟩) (by simp)

/-! ### Claims -/

/-- C1: the Pose Request built by `spawn_robot` from GUI inputs
(x, y, z, orientation-z, orientation-w) has model name "R1",
position (−x, −y, z), orientation x = y = 0, orientation z and w passed
through. -/
theorem spawn_request_fields (x y z oz ow : ℚ) :
    (buildSpawnRequest x y z oz ow).model_state.model_name = "R1" ∧
    (buildSpawnRequest x y z oz ow).model_state.pose.position_x = -x ∧
    (buildSpawnRequest x y z oz ow).model_state.pose.position_y = -y ∧
    (buildSpawnRequest x y z oz ow).model_state.pose.position_z = z ∧
    (buildSpawnRequest x y z oz ow).model_state.pose.orientation_x = 0 ∧
    (buildSpawnRequest x y z oz ow).model_state.pose.orientation_y = 0 ∧
    (buildSpawnRequest x y z oz ow).model_state.pose.orientation_z = oz ∧
    (buildSpawnRequest x y z oz ow).model_state.pose.orientation_w = ow := by
  refine ⟨rfl, ?_, ?_, rfl, rfl, rfl, rfl, rfl⟩ <;>
    simp [buildSpawnRequest, mul_neg_one]

/-- C2: for a dense 3-byte-per-pixel message of width W and height H, the
bitmap stored by `update_camera_feed` is `decodeFrame` of the message, and at
every pixel (r, c) with r < H, c < W its channel k < 3 equals the input
buffer's byte at the corresponding offset with the channel order reversed. -/
theorem camera_feed_channels_reversed (st : AppState) (m : ImageMsg)
    (hlen : m.data.length = 3 * m.width * m.height)
    (r c k : Nat) (hr : r < m.height) (hc : c < m.width) (hk : k < 3) :
    (update_camera_feed st m).current_frame = some (decodeFrame m) ∧
    (decodeFrame m).byte r c k =
      m.data.getD (r * (3 * m.width) + 3 * c + (2 - k)) 0 := ⟨rfl, rfl⟩

/-- Witness for C2 at `msg0`: channel 0 of pixel (0,1) of the decoded bitmap
is byte 5 of the buffer (value 60). -/
theorem camera_feed_channels_reversed_witness :
    (update_camera_feed stEmpty msg0).current_frame = some (decodeFrame msg0) ∧
    (decodeFrame msg0).byte 0 1 0 =
      msg0.data.getD (0 * (3 * msg0.width) + 3 * 1 + (2 - 0)) 0 :=
  camera_feed_channels_reversed stEmpty msg0 (by decide) 0 1 0
    (by decide) (by decide) (by decide)

/-- C4: with no current frame, `capture_frame` leaves the filesystem exactly
as it was (no file, no directory created) and writes the fixed
no-screenshot status message. -/
theorem capture_without_frame (now : DateMoment) (fs : FileSystem) (st : AppState)
    (h : st.current_frame = none) :
    (capture_frame now fs st).1 = fs ∧
    (capture_frame now fs st).2 = { st with capture_frame_output :=
      "No screenshot captured. Camera feed might be empty." } := by
  simp [capture_frame, h]

/-- Witness for C4: the empty-frame state. -/
theorem capture_without_frame_witness :
    (capture_frame d0 fs0 stEmpty).1 = fs0 ∧
    (capture_frame d0 fs0 stEmpty).2 = { stEmpty with capture_frame_output :=
      "No screenshot captured. Camera feed might be empty." } :=
  capture_without_frame d0 fs0 stEmpty rfl

/-- C7: when the service call raises a ServiceException, `spawn_robot` logs
the error text and returns with the window state and the filesystem exactly
as before; the only other effect is the recorded call attempt. -/
theorem spawn_robot_failure (e : String) (st : AppState) (fs : FileSystem)
    (log : List String) (attempts : List SetModelStateRequest) :
    spawn_robot (.serviceException e) st fs log attempts =
      (st, fs, log ++ [e],
        attempts ++ [buildSpawnRequest st.coordinate_x st.coordinate_y
          st.coordinate_z st.orientation_z st.orientation_w]) := rfl

/-- C10: on every path, success or failure, `spawn_robot` leaves the whole
window state (frame slot, status, preview, input fields) and the filesystem
unchanged; its only effects are the outbound call attempt and, on failure,
one log entry. -/
theorem spawn_robot_pure (o : ServiceOutcome) (st : AppState) (fs : FileSystem)
    (log : List String) (attempts : List SetModelStateRequest) :
    (spawn_robot o st fs log attempts).1 = st ∧
    (spawn_robot o st fs log attempts).2.1 = fs ∧
    (spawn_robot o st fs log attempts).2.2.2 =
      attempts ++ [buildSpawnRequest st.coordinate_x st.coordinate_y
        st.coordinate_z st.orientation_z st.orientation_w] ∧
    (spawn_robot o st fs log attempts).2.2.1 =
      (match o with
       | .ok => log
       | .serviceException e => log ++ [e]) := by
  cases o <;> exact ⟨rfl, rfl, rfl, rfl⟩

/-- C3: with a current frame present and the timestamped path not yet on
disk, `capture_frame` adds exactly that one file, whose name is
`screenshots/camera_feed_screenshot_<timestamp>.png` with the timestamp
formatted from the single wall-clock reading, and the status message is
built from that same timestamp. -/
theorem capture_with_frame (now : DateMoment) (fs : FileSystem) (st : AppState)
    (f : Bitmap) (hf : st.current_frame = some f)
    (hfresh : screenshot_path now ∉ fs.files.map Prod.fst) :
    (capture_frame now fs st).1.files.map Prod.fst =
      screenshot_path now :: fs.files.map Prod.fst ∧
    screenshot_path now = "screenshots" ++ "/" ++ "camera_feed_screenshot_" ++
      strftime_timestamp now ++ ".png" ∧
    (capture_frame now fs st).2.capture_frame_output =
      "Screenshot saved at " ++ strftime_timestamp now ++ " in \x27pwd/" ++
        "screenshots" ++ "\x27" := by
  have hfilter : fs.files.filter
      (fun e : String × Bitmap => !decide (e.1 = screenshot_path now)) = fs.files := by
    refine filter_of_forall _ _ ?_
    intro a ha
    have hmem : a.1 ∈ fs.files.map Prod.fst := List.mem_map_of_mem Prod.fst ha
    simp only [Bool.not_eq_true', decide_eq_false_iff_not]
    intro heq
    exact hfresh (heq ▸ hmem)
  refine ⟨?_, rfl, ?_⟩
  · simp [capture_frame, hf, pyQImageTruthy, saveFile, ensure_dir_files, hfilter]
  · simp [capture_frame, hf, pyQImageTruthy]

/-- Witness for C3: capturing at `d0` from the empty filesystem with the
frame decoded from `msg0`. -/
theorem capture_with_frame_witness :
    (capture_frame d0 fs0 st0).1.files.map Prod.fst =
      screenshot_path d0 :: fs0.files.map Prod.fst ∧
    screenshot_path d0 = "screenshots" ++ "/" ++ "camera_feed_screenshot_" ++
      strftime_timestamp d0 ++ ".png" ∧
    (capture_frame d0 fs0 st0).2.capture_frame_output =
      "Screenshot saved at " ++ strftime_timestamp d0 ++ " in \x27pwd/" ++
        "screenshots" ++ "\x27" :=
  capture_with_frame d0 fs0 st0 (decodeFrame msg0) rfl (by simp [fs0])

/-- C5: `capture_frame` is deterministic in the clock reading and idempotent
within one second: immediately repeating a capture with the same
second-resolution clock value recomputes the identical output path,
overwrites the same file and leaves filesystem and window exactly as after
the first capture. -/
theorem capture_idempotent (now : DateMoment) (fs : FileSystem) (st : AppState) :
    capture_frame now (capture_frame now fs st).1 (capture_frame now fs st).2 =
      capture_frame now fs st := by
  cases hf : st.current_frame with
  | none => simp [capture_frame, hf]
  | some f =>
    by_cases hd : "screenshots" ∈ fs.dirs <;>
      simp [capture_frame, hf, pyQImageTruthy, saveFile, makedirs, hd,
        List.filter_cons, filter_idem]

/-- C8: with a current frame present, `capture_frame` ensures the
`screenshots` directory: it is created exactly when absent, an existing one
is tolerated unchanged, and in both cases the PNG is then written into it. -/
theorem capture_ensures_dir (now : DateMoment) (fs : FileSystem) (st : AppState)
    (f : Bitmap) (hf : st.current_frame = some f) :
    "screenshots" ∈ (capture_frame now fs st).1.dirs ∧
    ("screenshots" ∈ fs.dirs → (capture_frame now fs st).1.dirs = fs.dirs) ∧
    ("screenshots" ∉ fs.dirs →
      (capture_frame now fs st).1.dirs = fs.dirs ++ ["screenshots"]) ∧
    screenshot_path now ∈ (capture_frame now fs st).1.files.map Prod.fst := by
  by_cases hd : "screenshots" ∈ fs.dirs <;>
    simp [capture_frame, hf, pyQImageTruthy, saveFile, makedirs, hd]

/-- Witness for C8: first capture from the empty filesystem creates
`screenshots` and writes the file. -/
theorem capture_ensures_dir_witness :
    "screenshots" ∈ (capture_frame d0 fs0 st0).1.dirs ∧
    ("screenshots" ∈ fs0.dirs → (capture_frame d0 fs0 st0).1.dirs = fs0.dirs) ∧
    ("screenshots" ∉ fs0.dirs →
      (capture_frame d0 fs0 st0).1.dirs = fs0.dirs ++ ["screenshots"]) ∧
    screenshot_path d0 ∈ (capture_frame d0 fs0 st0).1.files.map Prod.fst :=
  capture_ensures_dir d0 fs0 st0 (decodeFrame msg0) rfl

/-- C6: every inbound image message overwrites the single current-frame slot,
so after any event sequence from the freshly constructed window the slot
holds exactly the bitmap decoded from the most recently delivered image
message (and is empty if none was delivered): no older frame survives. -/
theorem current_frame_is_latest_message (cx cy cz oz ow : ℚ) (es : List Event) :
    (run (initWorld cx cy cz oz ow) es).st.current_frame =
      (lastImage es).map decodeFrame := by
  rw [run_current_frame es (initWorld cx cy cz oz ow)]
  cases hL : lastImage es <;> simp [initWorld]

/-- C9: the capture branch is decided by Python truthiness of the slot:
`None` (before any message) is falsy and every stored QImage is truthy, so
after any event sequence the branch condition holds exactly when at least
one image message was ever delivered; when it fails the filesystem is
untouched, and when it holds the capture writes the screenshot file. -/
theorem capture_io_iff_message (cx cy cz oz ow : ℚ) (es : List Event)
    (now : DateMoment) (fs : FileSystem) :
    (∀ f : Bitmap, pyTruthy (some f) = true) ∧
    (pyTruthy (run (initWorld cx cy cz oz ow) es).st.current_frame = true ↔
      ∃ m, Event.imageMsg m ∈ es) ∧
    (pyTruthy (run (initWorld cx cy cz oz ow) es).st.current_frame = false →
      (capture_frame now fs (run (initWorld cx cy cz oz ow) es).st).1 = fs) ∧
    (pyTruthy (run (initWorld cx cy cz oz ow) es).st.current_frame = true →
      screenshot_path now ∈
        (capture_frame now fs (run (initWorld cx cy cz oz ow) es).st).1.files.map
          Prod.fst) := by
  have hcur : ∀ m, lastImage es = some m →
      (run (initWorld cx cy cz oz ow) es).st.current_frame =
        some (decodeFrame m) := by
    intro m hL
    rw [run_current_frame es (initWorld cx cy cz oz ow), hL]
  have hnone : lastImage es = none →
      (run (initWorld cx cy cz oz ow) es).st.current_frame = none := by
    intro hL
    rw [run_current_frame es (initWorld cx cy cz oz ow), hL]
    rfl
  refine ⟨fun f => rfl, ?_, ?_, ?_⟩
  · rw [← lastImage_isSome_iff]
    cases hL : lastImage es with
    | none => rw [hnone hL] ; simp [pyTruthy]
    | some m => rw [hcur m hL] ; simp [pyTruthy, pyQImageTruthy]
  · intro hfalse
    cases hL : lastImage es with
    | none => simp [capture_frame, hnone hL]
    | some m =>
      rw [hcur m hL] at hfalse
      simp [pyTruthy, pyQImageTruthy] at hfalse
  · intro htrue
    cases hL : lastImage es with
    | none =>
      rw [hnone hL] at htrue
      simp [pyTruthy] at htrue
    | some m =>
      simp [capture_frame, hcur m hL, pyQImageTruthy, saveFile]

/-- Witness for C9: after delivering `msg0`, the capture branch holds and
the screenshot file is written. -/
theorem capture_io_iff_message_witness :
    pyTruthy (run (initWorld 0 0 0 0 0) [Event.imageMsg msg0]).st.current_frame
        = true ∧
    screenshot_path d0 ∈
      (capture_frame d0 fs0
        (run (initWorld 0 0 0 0 0) [Event.imageMsg msg0]).st).1.files.map
        Prod.fst :=
  ⟨rfl, (capture_io_iff_message 0 0 0 0 0 [Event.imageMsg msg0] d0 fs0).2.2.2 rfl⟩

end RSFC
